import Mathlib

set_option maxRecDepth 8000

/-!
# A verification model of the Phaser CE audio engine (`src/build/modules/sound.js`)

This file gives a shallow embedding of the `Phaser.Sound` playback state
machine and the parts of `Phaser.SoundManager` that the verified properties
talk about, and proves (or refutes) the documented properties against it.

Modelling conventions:

* Machine state that lives on the JS objects becomes fields of a Lean
  structure.  Private JS fields written `_foo` are rendered without the
  underscore (`_volume` becomes `volume`, `_muted` becomes `muted`, ...).
* `Phaser.Signal#dispatch` is rendered as an `Event` appended to the list of
  events that each operation returns alongside the updated state;
  `console.warn` is rendered as the `Event.warn` constructor.
* Reads from collaborators that the spec declares external (the asset cache,
  the game clock, the backend voice) are fields of an `Env` value passed to
  each operation; writes to those collaborators carry no engine state and are
  noted in comments where they occur.
* JS `undefined` arguments become `Option` arguments (`none` = omitted).
* Seconds and milliseconds are rational numbers.
-/

namespace Phaser

/-- One dispatch of a `Phaser.Signal` belonging to a `Sound` (or a
`console.warn` call), in dispatch order. -/
inductive Event where
  | onPlay
  | onPause
  | onResume
  | onLoop
  | onStop (marker : String)
  | onMarkerComplete (marker : String)
  | onFadeComplete (volume : ℚ)
  | onMute
  | onDecoded
  | warn (msg : String)
deriving DecidableEq, Repr

/-- A sound marker as stored by `Sound.addMarker` (sound.js:527-535): the JS
object literal `{name, start, stop, volume, duration, durationMS, loop}`. -/
structure Marker where
  name : String
  start : ℚ
  stop : ℚ
  volume : ℚ
  duration : ℚ
  durationMS : ℚ
  loop : Bool
deriving DecidableEq, Repr

/-- The mutable state of one `Phaser.Sound` (constructor, sound.js:144-491).

Field notes:
* `hasSound` models `this._sound !== null` (the backend voice handle);
  the voice object itself is external.
* `gainValue` models `this.gainNode.gain.value` (Web Audio backend).
* `fadeTween` models `this.fadeTween !== null`.
* `volume`, `muted`, `muteVolume`, `tempMarker`, `tempPosition`,
  `tempVolume`, `tempPause`, `tempLoop`, `globalVolume`, `paused2`,
  `markedToDelete`, `removeFromSoundManager`, `pendingStart`,
  `onDecodedEventDispatched`, `sourceId` model the same-named `_`-prefixed
  private fields.  (`_tempMarker` and `_tempLoop` are initialised to the JS
  number `0` in the source but are only ever read after `play` has stored a
  string / boolean into them; they are typed `String` / `Bool` here with the
  corresponding initial values `""` / `false`.) -/
structure Sound where
  key : String
  name : String
  loop : Bool
  markers : List Marker
  totalDuration : ℚ
  startTime : ℚ
  currentTime : ℚ
  duration : ℚ
  durationMS : ℚ
  position : ℚ
  stopTime : ℚ
  paused : Bool
  pausedPosition : ℚ
  pausedTime : ℚ
  isPlaying : Bool
  currentMarker : String
  fadeTween : Bool
  pendingPlayback : Bool
  override : Bool
  allowMultiple : Bool
  playOnce : Bool
  usingWebAudio : Bool
  usingAudioTag : Bool
  hasSound : Bool
  gainValue : ℚ
  volume : ℚ
  muted : Bool
  muteVolume : ℚ
  tempMarker : String
  tempPosition : ℚ
  tempVolume : ℚ
  tempPause : ℚ
  tempLoop : Bool
  globalVolume : ℚ
  pendingStart : Bool
  markedToDelete : Bool
  removeFromSoundManager : Bool
  sourceId : Nat
  onDecodedEventDispatched : Bool
deriving DecidableEq, Repr

/-- A snapshot of everything a `Sound` operation reads from its external
collaborators: the game clock (`game.time.time`), the asset cache
(`game.cache.*` queries for this sound's key), the device, and the live
backend voice (`this._sound.currentTime` position reports). -/
structure Env where
  time : ℚ
  checkSoundKey : Bool
  isSoundDecoded : Bool
  isSoundReady : Bool
  hasSoundCache : Bool
  isDecoding : Bool
  locked : Bool
  cocoonJS : Bool
  readyState4 : Bool
  bufferDuration : ℚ
  soundDuration : ℚ
  soundCurrentTime : ℚ
  managerMute : Bool
  managerVolume : ℚ
deriving Repr

/-- Modelled from the spec: `Phaser.Math.clamp` (not part of src/) clamps a
value into `[a, b]`; the spec says volume writes "clamp to [0,1] for the
element-based backend". -/
def clamp (v a b : ℚ) : ℚ :=
  if v < a then a else if v > b then b else v

/-- The `Phaser.Sound` constructor (sound.js:144-491) with the backend choice
(`game.sound.usingWebAudio` / `usingAudioTag`) passed in explicitly.
Under the Audio tag backend the element handle and its duration are taken
from the cache when the asset is already available (sound.js:363-379). -/
def Sound.init (env : Env) (key : String) (volume0 : Option ℚ) (loop0 : Option Bool)
    (usingWebAudio usingAudioTag : Bool) : Sound :=
  let volume := volume0.getD 1
  let loop := loop0.getD false
  let tagReady := usingAudioTag && env.hasSoundCache && env.isSoundReady
  { key := key
    name := key
    loop := loop
    markers := []
    totalDuration := if tagReady then env.soundDuration else 0
    startTime := 0
    currentTime := 0
    duration := 0
    durationMS := 0
    position := 0
    stopTime := 0
    paused := false
    pausedPosition := 0
    pausedTime := 0
    isPlaying := false
    currentMarker := ""
    fadeTween := false
    pendingPlayback := false
    override := false
    allowMultiple := false
    playOnce := false
    usingWebAudio := usingWebAudio
    usingAudioTag := usingAudioTag
    hasSound := tagReady
    gainValue := if usingWebAudio then volume else 0
    volume := volume
    muted := false
    muteVolume := 0
    tempMarker := ""
    tempPosition := 0
    tempVolume := 0
    tempPause := 0
    tempLoop := false
    globalVolume := 1
    pendingStart := false
    markedToDelete := false
    removeFromSoundManager := false
    sourceId := 0
    onDecodedEventDispatched := false }

/-- Marker lookup, `this.markers[marker]` (markers object as association list;
`addMarker` keeps names unique). -/
def Sound.findMarker (s : Sound) (name : String) : Option Marker :=
  s.markers.find? (fun m => m.name == name)

/-- `Sound.addMarker` (sound.js:521-536).  The JS object assignment
`this.markers[name] = {...}` replaces any previous entry for `name`; here the
new marker is prepended and the old entry (if any) dropped. -/
def Sound.addMarker (s : Sound) (name : String) (start : ℚ) (duration0 : Option ℚ)
    (volume0 : Option ℚ) (loop0 : Option Bool) : Sound :=
  let duration := duration0.getD 1
  let volume := volume0.getD 1
  let loop := loop0.getD false
  { s with markers :=
      { name := name
        start := start
        stop := start + duration
        volume := volume
        duration := duration
        durationMS := duration * 1000
        loop := loop } :: s.markers.filter (fun m => m.name != name) }

/-- `Sound.removeMarker` (sound.js:543-546). -/
def Sound.removeMarker (s : Sound) (name : String) : Sound :=
  { s with markers := s.markers.filter (fun m => m.name != name) }

/-- The `volume` property setter (sound.js:1363-1388).  Clamps for the Audio
tag backend, records only `_muteVolume` while muted, otherwise writes
`_tempVolume`, `_volume` and the backend gain/element volume. -/
def Sound.setVolume (s : Sound) (value0 : ℚ) : Sound :=
  let value := if s.usingAudioTag then clamp value0 0 1 else value0
  if s.muted then { s with muteVolume := value }
  else
    let s := { s with tempVolume := value, volume := value }
    if s.usingWebAudio then { s with gainValue := value }
    else s  -- Audio tag: this._sound.volume := _globalVolume * value (element state, external)

/-- The `mute` property setter (sound.js:1310-1348). -/
def Sound.setMuted (s : Sound) (value : Bool) : Sound × List Event :=
  if value == s.muted then (s, [])
  else if value then
    let s := { s with muted := true, muteVolume := s.tempVolume }
    let s := if s.usingWebAudio then { s with gainValue := 0 } else s
    (s, [Event.onMute])  -- Audio tag: element volume := 0 (external)
  else
    let s := { s with muted := false }
    let s := if s.usingWebAudio then { s with gainValue := s.muteVolume } else s
    (s, [Event.onMute])  -- Audio tag: element volume := _muteVolume (external)

/-- `Sound._createSourceAndConnect` (sound.js:1210-1217): acquires a fresh
Web Audio buffer source (voice), connects it and bumps the debug id.  The
source node and `_buffer` are external. -/
def Sound.createSourceAndConnect (s : Sound) : Sound :=
  { s with hasSound := true, sourceId := s.sourceId + 1 }

/-- `Sound._stopSourceAndDisconnect` (sound.js:1238-1255): stops and releases
the Web Audio voice and nulls `_sound`. -/
def Sound.stopSourceAndDisconnect (s : Sound) : Sound :=
  { s with hasSound := false }

/-- `Sound.stop` (sound.js:1029-1065). -/
def Sound.stop (s : Sound) : Sound × List Event :=
  let s :=
    if s.isPlaying && s.hasSound then
      if s.usingWebAudio then s.stopSourceAndDisconnect
      else s  -- Audio tag: this._sound.pause(); this._sound.currentTime := 0 (element state, external)
    else s
  let s := { s with pendingPlayback := false, isPlaying := false }
  if !s.paused then
    let prevMarker := s.currentMarker
    let es := if s.currentMarker != "" then [Event.onMarkerComplete s.currentMarker] else []
    let s := { s with currentMarker := "" }
    -- if (this.fadeTween !== null) this.fadeTween.stop();  (tween cancel, external)
    (s, es ++ [Event.onStop prevMarker])
  else (s, [])

/-- The voice-takeover block at the top of `Sound.play` (sound.js:736-749):
an existing voice is stopped and released when the sound is already playing
without `allowMultiple` and a restart was requested. -/
def Sound.stopExistingVoice (s : Sound) (forceRestart : Bool) : Sound :=
  if s.hasSound && s.isPlaying && !s.allowMultiple && (s.override || forceRestart) then
    let s :=
      if s.usingWebAudio then s.stopSourceAndDisconnect
      else s  -- Audio tag: this._sound.pause(); this._sound.currentTime := 0 (element state, external)
    { s with isPlaying := false }
  else s

/-- Marker resolution inside `Sound.play` (sound.js:764-786): defaults come
from the marker; explicit `volume` / `loop` arguments override. -/
def Sound.applyMarker (s : Sound) (m : Marker) (volume0 : Option ℚ) (loop0 : Option Bool) :
    Sound :=
  let s := { s with currentMarker := m.name, position := m.start }
  let s := s.setVolume m.volume
  let s := { s with loop := m.loop, duration := m.duration, durationMS := m.durationMS }
  let s := match volume0 with
           | some v => s.setVolume v
           | none => s
  let s := match loop0 with
           | some l => { s with loop := l }
           | none => s
  { s with tempMarker := m.name, tempPosition := s.position,
           tempVolume := s.volume, tempLoop := s.loop }

/-- Whole-clip resolution inside `Sound.play` (sound.js:796-810). -/
def Sound.applyNoMarker (s : Sound) (position0 : Option ℚ) (volume0 : Option ℚ)
    (loop0 : Option Bool) : Sound :=
  let position := position0.getD 0
  let volume := volume0.getD s.volume
  let loop := loop0.getD s.loop
  let s := { s with position := max 0 position }
  let s := s.setVolume volume
  let s := { s with loop := loop, duration := 0, durationMS := 0 }
  { s with tempMarker := "", tempPosition := position, tempVolume := volume, tempLoop := loop }

/-- The backend-start section of `Sound.play` (sound.js:813-918): start a Web
Audio voice if the asset is decoded, else fall into one of the pending /
Audio-tag paths. -/
def Sound.startBackend (env : Env) (s : Sound) (marker : String) (onPlayFlag : Bool) :
    Sound × List Event :=
  if s.usingWebAudio then
    if env.isSoundDecoded then
      let s := s.createSourceAndConnect
      -- if (this.loop && marker === '') this._sound.loop := true  (source node, external)
      -- if (!this.loop && marker === '') this._addOnEndedHandler()  (source node, external)
      let s := { s with totalDuration := env.bufferDuration }
      let s :=
        if s.duration = 0 then
          { s with duration := env.bufferDuration,
                   durationMS := (((env.bufferDuration * 1000).ceil : ℤ) : ℚ) }
        else s
      -- this._startSource(0, ...)  (source node, external)
      let s := { s with isPlaying := true, paused := false, startTime := env.time,
                        currentTime := 0 }
      let s := { s with stopTime := s.startTime + s.durationMS }
      (s, if onPlayFlag then [Event.onPlay] else [])
    else
      -- this.game.sound.decode(this.key, this) when the cache entry exists and is not decoding
      ({ s with pendingPlayback := true }, [])
  else if env.hasSoundCache && env.locked then
    -- this.game.cache.reloadSound(this.key)  (cache, external)
    ({ s with pendingPlayback := true }, [])
  else if s.hasSound && (env.cocoonJS || env.readyState4) then
    -- this._sound.play(); element loop / currentTime / muted / volume writes (element state, external)
    let s := { s with totalDuration := env.soundDuration }
    let s :=
      if s.duration = 0 then
        { s with duration := env.soundDuration, durationMS := env.soundDuration * 1000 }
      else s
    let s := { s with globalVolume := env.managerVolume }
    let s := { s with pendingStart := s.currentMarker == "", isPlaying := true, paused := false,
                      tempPause := 0, startTime := env.time, currentTime := 0 }
    let s := { s with stopTime := s.startTime + s.durationMS }
    (s, if onPlayFlag then [Event.onPlay] else [])
  else
    ({ s with pendingPlayback := true }, [])

/-- The `playOnce` block at the end of `Sound.play` (sound.js:920-929). -/
def Sound.playOnceFlag (s : Sound) : Sound × List Event :=
  if s.playOnce then
    let es :=
      if s.loop then
        [Event.warn ("Phaser.Sound.play: audio clip " ++ s.name ++ " cannot be deleted while looping.")]
      else []
    ({ s with markedToDelete := true, removeFromSoundManager := true }, es)
  else (s, [])

/-- `Sound.play` (sound.js:724-932).  `marker0 = none` models an
`undefined` / `null` / `false` marker argument, which the source coerces to
`''`. -/
def Sound.play (env : Env) (s : Sound) (marker0 : Option String) (position0 : Option ℚ)
    (volume0 : Option ℚ) (loop0 : Option Bool) (forceRestart0 : Option Bool)
    (onPlay0 : Option Bool) : Sound × List Event :=
  let marker := marker0.getD ""
  let forceRestart := forceRestart0.getD true
  let onPlayFlag := onPlay0.getD true
  if s.isPlaying && !s.allowMultiple && !forceRestart && !s.override then (s, [])
  else
    let s := s.stopExistingVoice forceRestart
    if marker == "" then
      if !s.markers.isEmpty then (s, [])  -- a sprite-like Sound must be played via a marker
      else
        let s := s.applyNoMarker position0 volume0 loop0
        let r1 := Sound.startBackend env s marker onPlayFlag
        let r2 := Sound.playOnceFlag r1.1
        (r2.1, r1.2 ++ r2.2)
    else
      match s.findMarker marker with
      | none => (s, [Event.warn ("Phaser.Sound.play: audio marker " ++ marker ++ " does not exist")])
      | some m =>
        let s := s.applyMarker m volume0 loop0
        let r1 := Sound.startBackend env s marker onPlayFlag
        let r2 := Sound.playOnceFlag r1.1
        (r2.1, r1.2 ++ r2.2)

/-- `Sound.restart` (sound.js:943-951). -/
def Sound.restart (env : Env) (s : Sound) (marker0 : Option String) (position0 : Option ℚ)
    (volume0 : Option ℚ) (loop0 : Option Bool) : Sound × List Event :=
  Sound.play env s (some (marker0.getD "")) (some (position0.getD 0)) (some (volume0.getD 1))
    (some (loop0.getD false)) (some true) none

/-- `Sound.pause` (sound.js:958-969). -/
def Sound.pause (env : Env) (s : Sound) : Sound × List Event :=
  if s.isPlaying then
    let s := { s with paused := true, pausedPosition := s.currentTime, pausedTime := env.time,
                      tempPause := env.soundCurrentTime }
    let r := Sound.stop s
    (r.1, [Event.onPause] ++ r.2)
  else (s, [])

/-- `Sound.resume` (sound.js:976-1022). -/
def Sound.resume (env : Env) (s : Sound) : Sound × List Event :=
  if s.paused then
    let s :=
      if s.usingWebAudio then
        -- p := max 0 (position + pausedPosition / 1000); source loop / onended / start (external)
        s.createSourceAndConnect
      else
        -- this._sound.currentTime := _tempPause; this._sound.play()  (element state, external)
        { s with pendingStart := s.currentMarker == "", tempPause := 0 }
    let s := { s with isPlaying := true, paused := false,
                      startTime := s.startTime + (env.time - s.pausedTime) }
    (s, [Event.onResume])
  else (s, [])

/-- The field clean-up shared by `Sound.destroy(false)` and
`Sound.onEndedHandler` (sound.js:1193-1207): `this.markers = {}` plus nulling
the context / buffer / external node and disposing the signals (the disposals
carry no modelled state). -/
def Sound.disposeFields (s : Sound) : Sound :=
  { s with markers := [] }

/-- `Sound.destroy` (sound.js:1180-1208).  `destroy()` with `remove = true`
calls `game.sound.remove(this)`, which de-registers the sound and invokes
`destroy(false)` on it (sound.js:2064-2079); that nested call is inlined
here. -/
def Sound.destroy (s : Sound) (remove0 : Option Bool) : Sound × List Event :=
  let remove := remove0.getD true
  let s := { s with markedToDelete := true, removeFromSoundManager := remove }
  let r1 := Sound.stop s
  if remove then
    let s2 := { r1.1 with markedToDelete := true, removeFromSoundManager := false }
    let r2 := Sound.stop s2
    (Sound.disposeFields r2.1, r1.2 ++ r2.2)
  else
    (Sound.disposeFields r1.1, r1.2)

/-- The per-tick clock advance and marker / whole-clip completion handling of
`Sound.update` (sound.js:642-696), reached once any Audio-tag pending start
has been resolved. -/
def Sound.updateCompletion (env : Env) (s : Sound) : Sound × List Event :=
  let now := env.time
  let s := { s with currentTime := now - s.startTime }
  if s.durationMS ≤ s.currentTime then
    if s.usingWebAudio then
      if s.loop then
        if s.currentMarker == "" then
          ({ s with currentTime := 0, startTime := now, isPlaying := true }, [Event.onLoop])
        else
          let s1 := { s with isPlaying := false }
          let r := Sound.play env s1 (some s.currentMarker) (some 0) (some s.volume)
                     (some true) (some true) (some false)
          (r.1, [Event.onLoop, Event.onMarkerComplete s.currentMarker] ++ r.2)
      else
        if s.currentMarker != "" then Sound.stop s
        else (s, [])  -- whole clip: let the onended handler deal with it
    else if s.loop then
      let s1 := if s.currentMarker == "" then { s with currentTime := 0, startTime := now } else s
      let s2 := { s1 with isPlaying := false }
      let r := Sound.play env s2 (some s2.currentMarker) (some 0) (some s2.volume)
                 (some true) (some true) (some false)
      (r.1, [Event.onLoop] ++ r.2)
    else Sound.stop s
  else (s, [])

/-- The `if (this.isPlaying) { ... }` body of `Sound.update`
(sound.js:622-697): the Audio-tag pending-start guard (sound.js:624-640),
then `Sound.updateCompletion`. -/
def Sound.updatePlayingTick (env : Env) (s : Sound) : Sound × List Event :=
  let now := env.time
  if s.pendingStart then
    let currentTime := env.soundCurrentTime
    let a := if s.paused then s.tempPause else 0
    let threshold := if a ≠ 0 then a else if s.position ≠ 0 then s.position else 0
    if currentTime > threshold then
      let s := { s with pendingStart := false, startTime := now - 1000 * currentTime }
      Sound.updateCompletion env { s with stopTime := s.startTime + s.durationMS }
    else (s, [])  -- still pending: do nothing else this tick
  else Sound.updateCompletion env s

/-- `Sound.update` (sound.js:600-698). -/
def Sound.update (env : Env) (s : Sound) : Sound × List Event :=
  if !env.checkSoundKey then Sound.destroy s none
  else
    let r1 : Sound × List Event :=
      if env.isSoundDecoded && !s.onDecodedEventDispatched then
        ({ s with onDecodedEventDispatched := true }, [Event.onDecoded])
      else (s, [])
    let s1 := r1.1
    let r2 : Sound × List Event :=
      if s1.pendingPlayback && env.isSoundReady then
        Sound.play env { s1 with pendingPlayback := false } (some s1.tempMarker)
          (some s1.tempPosition) (some s1.tempVolume) (some s1.tempLoop) none none
      else (s1, [])
    let s2 := r2.1
    let r3 : Sound × List Event :=
      if s2.isPlaying then Sound.updatePlayingTick env s2 else (s2, [])
    (r3.1, r1.2 ++ r2.2 ++ r3.2)

/-- `Sound.fadeComplete` (sound.js:1142-1150). -/
def Sound.fadeComplete (s : Sound) : Sound × List Event :=
  let es := [Event.onFadeComplete s.volume]
  if s.volume = 0 then
    let r := Sound.stop s
    (r.1, es ++ r.2)
  else (s, es)

/-- Modelled from the spec: the fade ramp is driven by `Phaser.Tween`
(`game.add.tween(this).to({volume}, duration, Linear, true)`), which is not
part of src/.  Per the spec the tween drives the `volume` property linearly
from its current value to the target over the duration and then fires its
`onComplete` handler (`Sound.fadeComplete`) exactly once.  Every ramp step
writes through the `volume` property setter, so only the final write (of the
target itself) is visible in the end state; the ramp is therefore rendered as
that single final write followed by the completion handler. -/
def Sound.runFadeTween (s : Sound) (target : ℚ) : Sound × List Event :=
  Sound.fadeComplete (s.setVolume target)

/-- `Sound.fadeTo` (sound.js:1116-1134), evaluated to the end of the fade it
starts (if any): the guard and warning come from the source, the ramp itself
from `Sound.runFadeTween`. -/
def Sound.fadeTo (s : Sound) (duration0 : Option ℚ) (volume0 : Option ℚ) : Sound × List Event :=
  if !s.isPlaying || s.paused || volume0 == some s.volume then (s, [])
  else
    match volume0 with
    | none => (s, [Event.warn "Phaser.Sound.fadeTo: No Volume Specified."])
    | some v => Sound.runFadeTween { s with fadeTween := true } v

/-- One invocation of a public `Sound` operation, as named by the spec's
state-machine section. -/
inductive Op where
  | play (marker0 : Option String) (position0 : Option ℚ) (volume0 : Option ℚ)
      (loop0 : Option Bool) (forceRestart0 : Option Bool) (onPlay0 : Option Bool)
  | pause
  | resume
  | stop
  | update
  | destroy (remove0 : Option Bool)

/-- Dispatch one public operation against the environment snapshot it runs
under. -/
def Sound.step (env : Env) (op : Op) (s : Sound) : Sound × List Event :=
  match op with
  | Op.play m p v l f o => Sound.play env s m p v l f o
  | Op.pause => Sound.pause env s
  | Op.resume => Sound.resume env s
  | Op.stop => Sound.stop s
  | Op.update => Sound.update env s
  | Op.destroy r => Sound.destroy s r

/-- Run a sequence of public operations; each carries the environment
snapshot (clock, cache decode state, ...) it observes, since decode
completion and the touch unlock happen asynchronously between ticks. -/
def Sound.runOps (s : Sound) : List (Env × Op) → Sound
  | [] => s
  | (env, op) :: rest => Sound.runOps (Sound.step env op s).1 rest

/-- The claimed mutual-exclusion invariant: a Sound is never simultaneously
playing and paused. -/
def Sound.inv (s : Sound) : Bool :=
  !(s.isPlaying && s.paused)

/-- `SoundManager.removeByKey` (sound.js:2110-2126): the backwards splice
loop removes every registered Sound whose `key` matches (each is destroyed
via `destroy(false)` as it is removed) and counts them.  The loop inspects
the last element first; removals at the cursor never disturb the indices
still to be visited, so the recursion below reproduces it exactly. -/
def SoundManager.removeByKey (sounds : List Sound) (key : String) : List Sound × Nat :=
  match sounds with
  | [] => ([], 0)
  | s :: rest =>
    let r := SoundManager.removeByKey rest key
    if s.key == key then (r.1, r.2 + 1) else (s :: r.1, r.2)

/-- The decode watch list of the `SoundManager` (`_watchList`, `_watching`;
sound.js:1568-1574). -/
structure WatchState where
  watchList : List String
  watching : Bool
deriving DecidableEq, Repr

/-- Modelled from the spec: `Phaser.ArraySet.add` (not part of src/) appends
a key only if it is not already present — the spec calls the watch list "a
small set of pending asset keys". -/
def arraySetAdd (l : List String) (k : String) : List String :=
  if k ∈ l then l else l ++ [k]

/-- `SoundManager.setDecodedCallback` (sound.js:1942-1978), for a list of key
strings: reset the watch list, add every not-yet-decoded key, then either
invoke the callback synchronously (second component `true`) or arm the
watch. -/
def SoundManager.setDecodedCallback (files : List String) (isSoundDecoded : String → Bool) :
    WatchState × Bool :=
  let l := files.foldl (fun acc k => if isSoundDecoded k then acc else arraySetAdd acc k) []
  if l.isEmpty then ({ watchList := [], watching := false }, true)
  else ({ watchList := l, watching := true }, false)

/-- The decode-watch section of `SoundManager.update` (sound.js:1998-2017).
Modelled from the spec: the `first`/`next` `Phaser.ArraySet` iteration with
in-place removal (ArraySet is not part of src/) is rendered, per the spec
("removes now-decoded keys from the watch set"), as filtering out every
now-decoded key this tick.  The second component reports whether the stored
callback was invoked this tick. -/
def SoundManager.updateWatch (isSoundDecoded : String → Bool) (w : WatchState) :
    WatchState × Bool :=
  if w.watching then
    let l := w.watchList.filter (fun k => !(isSoundDecoded k))
    if l.isEmpty then ({ watchList := l, watching := false }, true)
    else ({ watchList := l, watching := true }, false)
  else (w, false)

/-- Run successive `SoundManager.update` ticks, each observing its own cache
decode snapshot; returns the final watch state and the (0-based) tick indices
at which the decode callback fired. -/
def SoundManager.runWatch : WatchState → List (String → Bool) → WatchState × List Nat
  | w, [] => (w, [])
  | w, e :: es =>
    let r1 := SoundManager.updateWatch e w
    let r2 := SoundManager.runWatch r1.1 es
    (r2.1, (if r1.2 then [0] else []) ++ r2.2.map (· + 1))

/-- Does an event witness an `onFadeComplete` dispatch? -/
def isFadeEvent : Event → Bool
  | Event.onFadeComplete _ => true
  | _ => false

/-! ### Concrete sample states used by the counterexamples and witnesses -/

/-- A baseline environment snapshot: clock at 0, asset cached and decoded,
device unlocked. -/
def envDecoded : Env :=
  { time := 0
    checkSoundKey := true
    isSoundDecoded := true
    isSoundReady := true
    hasSoundCache := true
    isDecoding := false
    locked := false
    cocoonJS := false
    readyState4 := true
    bufferDuration := 2
    soundDuration := 2
    soundCurrentTime := 0
    managerMute := false
    managerVolume := 1 }

/-- Like `envDecoded` but the asset has not been decoded yet. -/
def envUndecoded : Env :=
  { envDecoded with isSoundDecoded := false, isSoundReady := false }

/-- A freshly constructed Web Audio `Sound` on key `"blip"`. -/
def soundBlip : Sound :=
  Sound.init envDecoded "blip" none none true false

/-- A second `"blip"` Sound and a `"boom"` Sound for the registry scenario. -/
def soundBlip2 : Sound :=
  Sound.init envDecoded "blip" (some (1/2)) none true false

/-- See `soundBlip2`. -/
def soundBoom : Sound :=
  Sound.init envDecoded "boom" none none true false

/-- `soundBlip` after `addMarker("explosion", 2, 0.5)` and a successful
`play("explosion")`. -/
def soundPlayingMarker : Sound :=
  (Sound.play envDecoded
    (Sound.addMarker soundBlip "explosion" 2 (some (1/2)) none none)
    (some "explosion") none none none none none).1

/-- `soundBlip` playing the whole clip, then muted via the `mute` setter. -/
def soundMutedPlaying : Sound :=
  (Sound.setMuted (Sound.play envDecoded soundBlip none none none none none none).1 true).1

/-- The two-call trace that leaves `pendingPlayback` set on a playing Sound:
`play()` before the asset is decoded, then `play()` again (both public calls)
after the asynchronous decode completed. -/
def pendingTrace : List (Env × Op) :=
  [(envUndecoded, Op.play none none none none none none),
   (envDecoded, Op.play none none none none none none)]

/-- `envDecoded` five milliseconds later (used for the pause/resume pair). -/
def envTime5 : Env :=
  { envDecoded with time := 5 }

/-- A cache snapshot in which no asset reports decoded. -/
def decNone : String → Bool := fun _ => false

/-- A cache snapshot in which every asset reports decoded. -/
def decAll : String → Bool := fun _ => true

/-! ### Helper lemmas -/

@[simp]
theorem setVolume_isPlaying (s : Sound) (v : ℚ) :
    (s.setVolume v).isPlaying = s.isPlaying := by
  simp only [Sound.setVolume]
  (repeat' split) <;> rfl

@[simp]
theorem setVolume_paused (s : Sound) (v : ℚ) :
    (s.setVolume v).paused = s.paused := by
  simp only [Sound.setVolume]
  (repeat' split) <;> rfl

@[simp]
theorem setVolume_duration (s : Sound) (v : ℚ) :
    (s.setVolume v).duration = s.duration := by
  simp only [Sound.setVolume]
  (repeat' split) <;> rfl

@[simp]
theorem setVolume_durationMS (s : Sound) (v : ℚ) :
    (s.setVolume v).durationMS = s.durationMS := by
  simp only [Sound.setVolume]
  (repeat' split) <;> rfl

@[simp]
theorem setVolume_usingWebAudio (s : Sound) (v : ℚ) :
    (s.setVolume v).usingWebAudio = s.usingWebAudio := by
  simp only [Sound.setVolume]
  (repeat' split) <;> rfl

@[simp]
theorem setVolume_muted (s : Sound) (v : ℚ) :
    (s.setVolume v).muted = s.muted := by
  simp only [Sound.setVolume]
  (repeat' split) <;> rfl

theorem setVolume_not_muted (s : Sound) (v : ℚ) (h : s.muted = false)
    (hcl : s.usingAudioTag = true → clamp v 0 1 = v) :
    (s.setVolume v).volume = v := by
  rcases hta : s.usingAudioTag with _ | _ <;> rcases hw : s.usingWebAudio with _ | _ <;>
    simp [Sound.setVolume, h, hta, hw, hcl]

@[simp]
theorem stopExistingVoice_markers (s : Sound) (fr : Bool) :
    (s.stopExistingVoice fr).markers = s.markers := by
  simp only [Sound.stopExistingVoice, Sound.stopSourceAndDisconnect]
  (repeat' split) <;> rfl

@[simp]
theorem stopExistingVoice_paused (s : Sound) (fr : Bool) :
    (s.stopExistingVoice fr).paused = s.paused := by
  simp only [Sound.stopExistingVoice, Sound.stopSourceAndDisconnect]
  (repeat' split) <;> rfl

theorem stopExistingVoice_not_playing (s : Sound) (fr : Bool) (h : s.isPlaying = false) :
    s.stopExistingVoice fr = s := by
  unfold Sound.stopExistingVoice
  simp [h]

@[simp]
theorem stopExistingVoice_findMarker (s : Sound) (fr : Bool) (name : String) :
    (s.stopExistingVoice fr).findMarker name = s.findMarker name := by
  unfold Sound.findMarker
  rw [stopExistingVoice_markers]

@[simp]
theorem applyMarker_duration (s : Sound) (m : Marker) (v0 : Option ℚ) (l0 : Option Bool) :
    (s.applyMarker m v0 l0).duration = m.duration := by
  unfold Sound.applyMarker
  cases v0 <;> cases l0 <;> simp

@[simp]
theorem applyMarker_durationMS (s : Sound) (m : Marker) (v0 : Option ℚ) (l0 : Option Bool) :
    (s.applyMarker m v0 l0).durationMS = m.durationMS := by
  unfold Sound.applyMarker
  cases v0 <;> cases l0 <;> simp

@[simp]
theorem applyMarker_usingWebAudio (s : Sound) (m : Marker) (v0 : Option ℚ) (l0 : Option Bool) :
    (s.applyMarker m v0 l0).usingWebAudio = s.usingWebAudio := by
  unfold Sound.applyMarker
  cases v0 <;> cases l0 <;> simp

@[simp]
theorem playOnceFlag_duration (s : Sound) :
    s.playOnceFlag.1.duration = s.duration := by
  unfold Sound.playOnceFlag
  split <;> rfl

@[simp]
theorem playOnceFlag_durationMS (s : Sound) :
    s.playOnceFlag.1.durationMS = s.durationMS := by
  unfold Sound.playOnceFlag
  split <;> rfl

theorem startBackend_duration_ne_zero (env : Env) (s : Sound) (marker : String) (f : Bool)
    (hd : s.duration ≠ 0) (hwa : s.usingWebAudio = true) (hdec : env.isSoundDecoded = true) :
    (Sound.startBackend env s marker f).1.duration = s.duration ∧
    (Sound.startBackend env s marker f).1.durationMS = s.durationMS := by
  unfold Sound.startBackend Sound.createSourceAndConnect
  simp [hwa, hdec, hd]

/-- `play` on a Sound that is not playing, with an existing marker name:
the call resolves the marker and runs the backend-start and `playOnce`
blocks. -/
theorem play_existing_marker (env : Env) (s : Sound) (name : String) (m : Marker)
    (p v : Option ℚ) (l fr op : Option Bool) (hnp : s.isPlaying = false)
    (hname : (name == "") = false) (hfind : s.findMarker name = some m) :
    Sound.play env s (some name) p v l fr op =
      ((Sound.startBackend env (s.applyMarker m v l) name (op.getD true)).1.playOnceFlag.1,
       (Sound.startBackend env (s.applyMarker m v l) name (op.getD true)).2 ++
         (Sound.startBackend env (s.applyMarker m v l) name (op.getD true)).1.playOnceFlag.2) := by
  simp [Sound.play, hnp, hname, stopExistingVoice_not_playing s (fr.getD true) hnp, hfind]

@[simp]
theorem stop_fst_volume (s : Sound) : (Sound.stop s).1.volume = s.volume := by
  simp only [Sound.stop, Sound.stopSourceAndDisconnect]
  (repeat' split) <;> rfl

@[simp]
theorem stop_fst_isPlaying (s : Sound) : (Sound.stop s).1.isPlaying = false := by
  simp only [Sound.stop, Sound.stopSourceAndDisconnect]
  (repeat' split) <;> rfl

theorem stop_events_no_fade (s : Sound) : (Sound.stop s).2.countP isFadeEvent = 0 := by
  simp only [Sound.stop, Sound.stopSourceAndDisconnect]
  (repeat' split) <;> rfl

theorem clamp_of_le (v : ℚ) (h0 : 0 ≤ v) (h1 : v ≤ 1) : clamp v 0 1 = v := by
  unfold clamp
  rw [if_neg (not_lt.mpr h0), if_neg (not_lt.mpr h1)]

/-! ### C1 — `stop()` on a non-playing Sound -/

/-- C1 (counterexample): the claim "for every Sound with `isPlaying == false`,
`stop()` never dispatches `onStop` nor `onMarkerComplete` and leaves the state
unchanged" is false at a concrete input: on a freshly constructed (hence
non-playing and non-paused) Sound, `stop()` still dispatches `onStop`. -/
theorem c1_counterexample :
    soundBlip.isPlaying = false ∧ (Sound.stop soundBlip).2 = [Event.onStop ""] :=
  ⟨by with_unfolding_all rfl, by with_unfolding_all rfl⟩

/-- C1 (amended): `stop()` on a non-playing Sound never touches the backend
voice and always clears `pendingPlayback`; it dispatches no signal only when
the Sound is paused — when it is not paused it still dispatches
`onMarkerComplete` (if a marker is current) followed by `onStop`, and clears
`currentMarker`. -/
theorem c1_stop_nonplaying (s : Sound) (h : s.isPlaying = false) :
    Sound.stop s =
      if s.paused then
        ({ s with pendingPlayback := false, isPlaying := false }, ([] : List Event))
      else
        ({ s with pendingPlayback := false, isPlaying := false, currentMarker := "" },
         (if s.currentMarker != "" then [Event.onMarkerComplete s.currentMarker] else [])
           ++ [Event.onStop s.currentMarker]) := by
  cases hp : s.paused <;> cases hcm : s.currentMarker == "" <;>
    simp [Sound.stop, h, hp, hcm]

/-- C1 (witness): the amended statement evaluated on the fresh `"blip"`
Sound. -/
theorem c1_witness :
    Sound.stop soundBlip =
      ({ soundBlip with pendingPlayback := false, isPlaying := false, currentMarker := "" },
       [Event.onStop ""]) := by
  rw [c1_stop_nonplaying soundBlip (by with_unfolding_all rfl)]
  with_unfolding_all rfl

/-! ### C2 — `play()` with no marker on a marker-bearing Sound -/

/-- C2 (counterexample): the claim "`play` with no marker on a Sound that has
markers is always a no-op with every field unchanged, regardless of whether
the Sound was playing and of the forceRestart/override flags" is false at a
concrete input: on a Sound that is playing a marker, the call (with the
default `forceRestart = true`) stops the live voice first, so the state does
change — even though no signal is dispatched. -/
theorem c2_counterexample :
    soundPlayingMarker.markers.length = 1 ∧ soundPlayingMarker.isPlaying = true ∧
    (Sound.play envDecoded soundPlayingMarker none none none none none none).1.isPlaying
      = false ∧
    (Sound.play envDecoded soundPlayingMarker none none none none none none).2 = [] :=
  ⟨by with_unfolding_all rfl, by with_unfolding_all rfl,
   by with_unfolding_all rfl, by with_unfolding_all rfl⟩

/-- C2 (amended): `play` with no marker on a Sound that has markers never
dispatches a signal, and the only state change is the voice-takeover block:
if the Sound is playing without `allowMultiple` and a restart applies, the
existing voice is stopped and released (`isPlaying` becomes false); in every
other case the state is returned unchanged. -/
theorem c2_play_no_marker (env : Env) (s : Sound) (marker0 : Option String)
    (p v : Option ℚ) (l fr op : Option Bool) (hm : marker0.getD "" = "")
    (hmk : s.markers ≠ []) :
    Sound.play env s marker0 p v l fr op =
      (if s.isPlaying && !s.allowMultiple && !(fr.getD true) && !s.override then s
       else s.stopExistingVoice (fr.getD true), []) := by
  have hne : (s.stopExistingVoice (fr.getD true)).markers.isEmpty = false := by
    rw [stopExistingVoice_markers]
    cases hmkk : s.markers with
    | nil => exact absurd hmkk hmk
    | cons a t => rfl
  rcases hg : s.isPlaying && !s.allowMultiple && !(fr.getD true) && !s.override with _ | _ <;>
    simp [Sound.play, hm, hg, hne, hmk]

/-- C2 (witness): the amended statement evaluated on the playing
marker-bearing Sound. -/
theorem c2_witness :
    Sound.play envDecoded soundPlayingMarker none none none none none none =
      (Sound.stopExistingVoice soundPlayingMarker true, []) := by
  rw [c2_play_no_marker envDecoded soundPlayingMarker none none none none none none
    (by with_unfolding_all rfl) (by with_unfolding_all decide)]
  with_unfolding_all rfl

/-! ### C6 — `play()` with a marker name that does not exist -/

/-- C6 (counterexample): the claim "`play` with a nonexistent marker name
logs a warning and leaves the Sound's state unchanged (no field modified)" is
false at a concrete input: on a Sound that is playing, the call stops the
live voice before rejecting the marker, so the state does change. -/
theorem c6_counterexample :
    soundPlayingMarker.isPlaying = true ∧
    Sound.findMarker soundPlayingMarker "typo" = none ∧
    (Sound.play envDecoded soundPlayingMarker (some "typo") none none none none none).1.isPlaying
      = false ∧
    (Sound.play envDecoded soundPlayingMarker (some "typo") none none none none none).2 =
      [Event.warn "Phaser.Sound.play: audio marker typo does not exist"] :=
  ⟨by with_unfolding_all rfl, by with_unfolding_all rfl,
   by with_unfolding_all rfl, by with_unfolding_all rfl⟩

/-- C6 (amended): `play` with a marker name that is not in `markers` logs a
warning, dispatches no signal and starts no voice; the only state change is
the voice-takeover block (an already-playing voice is stopped when a restart
applies), and when the early no-op guard fires not even the warning is
logged. -/
theorem c6_play_missing_marker (env : Env) (s : Sound) (m : String) (p v : Option ℚ)
    (l fr op : Option Bool) (hm : m ≠ "") (hfind : s.findMarker m = none) :
    Sound.play env s (some m) p v l fr op =
      if s.isPlaying && !s.allowMultiple && !(fr.getD true) && !s.override then (s, [])
      else (s.stopExistingVoice (fr.getD true),
            [Event.warn ("Phaser.Sound.play: audio marker " ++ m ++ " does not exist")]) := by
  have hmb : (m == "") = false := by
    simpa using hm
  have hfind' : (s.stopExistingVoice (fr.getD true)).findMarker m = none := by
    rw [stopExistingVoice_findMarker]
    exact hfind
  rcases hg : s.isPlaying && !s.allowMultiple && !(fr.getD true) && !s.override with _ | _ <;>
    simp [Sound.play, hg, hmb, hfind']

/-- C6 (witness): the amended statement evaluated on the playing Sound and
the marker name `"typo"`. -/
theorem c6_witness :
    Sound.play envDecoded soundPlayingMarker (some "typo") none none none none none =
      (Sound.stopExistingVoice soundPlayingMarker true,
       [Event.warn "Phaser.Sound.play: audio marker typo does not exist"]) := by
  rw [c6_play_missing_marker envDecoded soundPlayingMarker "typo" none none none none none
    (by decide) (by with_unfolding_all rfl)]
  with_unfolding_all rfl

/-! ### C9 — `SoundManager.removeByKey` -/

/-- C9: `removeByKey(key)` removes (destroying each one) exactly the
registered Sounds whose `key` matches, keeps every other Sound in registry
order, and returns the number removed; in particular on a registry holding
Sounds keyed "blip", "blip", "boom" it removes the two "blip" Sounds and
returns 2. -/
theorem c9_removeByKey (sounds : List Sound) (key : String) :
    (SoundManager.removeByKey sounds key =
      (sounds.filter (fun s => s.key != key),
       (sounds.filter (fun s => s.key == key)).length)) ∧
    SoundManager.removeByKey [soundBlip, soundBlip2, soundBoom] "blip" = ([soundBoom], 2) := by
  constructor
  · induction sounds with
    | nil => rfl
    | cons s rest ih =>
      rcases h : s.key == key with _ | _
      · have h2 : ¬ s.key = key := by simpa using h
        simp [SoundManager.removeByKey, ih, h, h2, List.filter_cons]
      · have h2 : s.key = key := by simpa using h
        simp [SoundManager.removeByKey, ih, h, h2, List.filter_cons]
  · with_unfolding_all rfl

/-! ### C10 — writing `volume` while muted -/

/-- C10: while a Sound's internal muted flag is set, an assignment to the
`volume` property leaves the getter value (`_volume`) and the backend gain
unchanged; it only records the (Audio-tag-clamped) value in `_muteVolume`,
to be restored on unmute. -/
theorem c10_volume_muted (s : Sound) (v : ℚ) (h : s.muted = true) :
    (Sound.setVolume s v).volume = s.volume ∧
    (Sound.setVolume s v).gainValue = s.gainValue ∧
    Sound.setVolume s v =
      { s with muteVolume := if s.usingAudioTag then clamp v 0 1 else v } := by
  refine ⟨?_, ?_, ?_⟩ <;> simp [Sound.setVolume, h]

/-- C10 (witness): writing volume 7 to the muted playing Sound only updates
`_muteVolume`. -/
theorem c10_witness :
    (Sound.setVolume soundMutedPlaying 7).volume = soundMutedPlaying.volume ∧
    (Sound.setVolume soundMutedPlaying 7).gainValue = soundMutedPlaying.gainValue ∧
    Sound.setVolume soundMutedPlaying 7 = { soundMutedPlaying with muteVolume := 7 } := by
  have h := c10_volume_muted soundMutedPlaying 7 (by with_unfolding_all rfl)
  refine ⟨h.1, h.2.1, ?_⟩
  rw [h.2.2]
  with_unfolding_all rfl

/-! ### C5 — `pause()` then `resume()` -/

/-- C5: on a playing Sound, `pause()` followed by `resume()` preserves
`currentMarker`, ends with `isPlaying = true` and `paused = false`, shifts
`startTime` forward by exactly the elapsed pause duration, and across the
pair only `onPause` and `onResume` are dispatched — never `onStop` or
`onMarkerComplete` (the `stop()` inside `pause()` sees `paused = true` and
skips its dispatch block). -/
theorem c5_pause_resume (env1 env2 : Env) (s : Sound) (h : s.isPlaying = true) :
    ((Sound.pause env1 s).1.resume env2).1.currentMarker = s.currentMarker ∧
    ((Sound.pause env1 s).1.resume env2).1.isPlaying = true ∧
    ((Sound.pause env1 s).1.resume env2).1.paused = false ∧
    ((Sound.pause env1 s).1.resume env2).1.startTime
      = s.startTime + (env2.time - env1.time) ∧
    (Sound.pause env1 s).2 = [Event.onPause] ∧
    ((Sound.pause env1 s).1.resume env2).2 = [Event.onResume] := by
  refine ⟨?_, ?_, ?_, ?_, ?_, ?_⟩ <;>
    cases hs : s.hasSound <;> cases hw : s.usingWebAudio <;>
      simp [Sound.pause, Sound.resume, Sound.stop, Sound.stopSourceAndDisconnect,
            Sound.createSourceAndConnect, h, hs, hw]

/-- C5 (witness): the pause/resume pair evaluated on the playing marker
Sound, with the clock at 0 at pause time and at 5 at resume time. -/
theorem c5_witness :
    ((Sound.pause envDecoded soundPlayingMarker).1.resume envTime5).1.currentMarker
      = soundPlayingMarker.currentMarker ∧
    ((Sound.pause envDecoded soundPlayingMarker).1.resume envTime5).1.isPlaying = true ∧
    ((Sound.pause envDecoded soundPlayingMarker).1.resume envTime5).1.paused = false ∧
    ((Sound.pause envDecoded soundPlayingMarker).1.resume envTime5).1.startTime
      = soundPlayingMarker.startTime + (envTime5.time - envDecoded.time) ∧
    (Sound.pause envDecoded soundPlayingMarker).2 = [Event.onPause] ∧
    ((Sound.pause envDecoded soundPlayingMarker).1.resume envTime5).2 = [Event.onResume] :=
  c5_pause_resume envDecoded envTime5 soundPlayingMarker (by with_unfolding_all rfl)

/-! ### C8 — markers store `stop = start + duration`; `play(marker)` adopts it -/

/-- C8: a marker `m` added via `addMarker` with duration `dur > 0` is stored
with `stop = start + dur` and `durationMS = dur * 1000`, and a successful
`play(m.name)` (Web Audio backend, asset decoded, Sound not already playing)
sets the Sound's `duration` to `dur` and `durationMS` to `dur * 1000`. -/
theorem c8_addMarker_play (env : Env) (s : Sound) (name : String) (start dur vol : ℚ)
    (lp : Bool) (hname : name ≠ "") (hdur : 0 < dur) (hnp : s.isPlaying = false)
    (hwa : s.usingWebAudio = true) (hdec : env.isSoundDecoded = true) :
    (s.addMarker name start (some dur) (some vol) (some lp)).findMarker name =
      some { name := name, start := start, stop := start + dur, volume := vol,
             duration := dur, durationMS := dur * 1000, loop := lp } ∧
    (Sound.play env (s.addMarker name start (some dur) (some vol) (some lp))
        (some name) none none none none none).1.duration = dur ∧
    (Sound.play env (s.addMarker name start (some dur) (some vol) (some lp))
        (some name) none none none none none).1.durationMS = dur * 1000 := by
  have hfind : (s.addMarker name start (some dur) (some vol) (some lp)).findMarker name =
      some { name := name, start := start, stop := start + dur, volume := vol,
             duration := dur, durationMS := dur * 1000, loop := lp } := by
    simp [Sound.addMarker, Sound.findMarker, List.find?]
  have hnp1 : (s.addMarker name start (some dur) (some vol) (some lp)).isPlaying = false := by
    simpa [Sound.addMarker] using hnp
  have hwa1 : (s.addMarker name start (some dur) (some vol) (some lp)).usingWebAudio = true := by
    simpa [Sound.addMarker] using hwa
  have hnameb : (name == "") = false := by
    simpa using hname
  refine ⟨hfind, ?_⟩
  rw [play_existing_marker env _ name _ none none none none none hnp1 hnameb hfind]
  simp only [Option.getD_none]
  have hsb := startBackend_duration_ne_zero env
    ((s.addMarker name start (some dur) (some vol) (some lp)).applyMarker
      { name := name, start := start, stop := start + dur, volume := vol,
        duration := dur, durationMS := dur * 1000, loop := lp } none none)
    name true (by simp [hdur.ne.symm]) (by simp [hwa1]) hdec
  constructor
  · rw [playOnceFlag_duration, hsb.1, applyMarker_duration]
  · rw [playOnceFlag_durationMS, hsb.2, applyMarker_durationMS]

/-- C8 (witness): the statement evaluated for the "explosion" marker
`(start 2, duration 0.5)` on the fresh Web Audio Sound. -/
theorem c8_witness :
    (soundBlip.addMarker "explosion" 2 (some (1/2)) (some 1) (some false)).findMarker
        "explosion" =
      some { name := "explosion", start := 2, stop := 2 + 1/2, volume := 1,
             duration := 1/2, durationMS := 1/2 * 1000, loop := false } ∧
    (Sound.play envDecoded
        (soundBlip.addMarker "explosion" 2 (some (1/2)) (some 1) (some false))
        (some "explosion") none none none none none).1.duration = 1/2 ∧
    (Sound.play envDecoded
        (soundBlip.addMarker "explosion" 2 (some (1/2)) (some 1) (some false))
        (some "explosion") none none none none none).1.durationMS = 1/2 * 1000 :=
  c8_addMarker_play envDecoded soundBlip "explosion" 2 (1/2) 1 false
    (by decide) (by norm_num) (by with_unfolding_all rfl) (by with_unfolding_all rfl)
    (by with_unfolding_all rfl)

/-! ### C4 — `fadeTo` -/

/-- C4 (counterexample): the claim "every `fadeTo(d, v)` call ends with
`volume == v`, dispatches `onFadeComplete(sound, v)` exactly once, and stops
the Sound when `v == 0`" is false at a concrete input: on a playing but muted
Sound with volume 1, `fadeTo(100, 0)` runs its ramp through the muted volume
setter, so the fade ends with the volume getter still returning 1, dispatches
`onFadeComplete` with 1 (not 0), and does not stop the Sound. -/
theorem c4_counterexample :
    soundMutedPlaying.isPlaying = true ∧ soundMutedPlaying.paused = false ∧
    soundMutedPlaying.volume = 1 ∧
    (Sound.fadeTo soundMutedPlaying (some 100) (some 0)).1.volume = 1 ∧
    (Sound.fadeTo soundMutedPlaying (some 100) (some 0)).2 = [Event.onFadeComplete 1] ∧
    (Sound.fadeTo soundMutedPlaying (some 100) (some 0)).1.isPlaying = true :=
  ⟨by with_unfolding_all rfl, by with_unfolding_all rfl, by with_unfolding_all rfl,
   by with_unfolding_all rfl, by with_unfolding_all rfl, by with_unfolding_all rfl⟩

/-- C4 (amended): for a Sound that is playing, not paused and not muted, and
a target volume `v ∈ [0,1]` different from the current volume, the fade
started by `fadeTo(d, v)` ends with `volume = v`, dispatches
`onFadeComplete` exactly once (with final volume `v`), and additionally ends
with `isPlaying = false` exactly when `v = 0` (via `stop()`); for a
non-playing or paused Sound, or `v` equal to the current volume, `fadeTo` is
a no-op, and on a muted Sound the ramp only retargets `_muteVolume`. -/
theorem c4_fadeTo (s : Sound) (d : Option ℚ) (v : ℚ)
    (hp : s.isPlaying = true) (hpa : s.paused = false) (hm : s.muted = false)
    (hv : v ≠ s.volume) (hcl : s.usingAudioTag = true → 0 ≤ v ∧ v ≤ 1) :
    (Sound.fadeTo s d (some v)).1.volume = v ∧
    (Sound.fadeTo s d (some v)).2.countP isFadeEvent = 1 ∧
    Event.onFadeComplete v ∈ (Sound.fadeTo s d (some v)).2 ∧
    (v = 0 → (Sound.fadeTo s d (some v)).1.isPlaying = false) ∧
    (v ≠ 0 → (Sound.fadeTo s d (some v)).1.isPlaying = true) := by
  have hguard : (!s.isPlaying || s.paused || ((some v : Option ℚ) == some s.volume)) = false := by
    simp only [hp, hpa, Bool.not_true, Bool.false_or]
    simpa using hv
  have hvol : (Sound.setVolume { s with fadeTween := true } v).volume = v := by
    apply setVolume_not_muted
    · exact hm
    · intro hta
      rcases hcl hta with ⟨h0, h1⟩
      exact clamp_of_le v h0 h1
  have hplay : (Sound.setVolume { s with fadeTween := true } v).isPlaying = true := by
    rw [setVolume_isPlaying]
    exact hp
  have hmain : Sound.fadeTo s d (some v) =
      if v = 0 then
        ((Sound.stop (Sound.setVolume { s with fadeTween := true } v)).1,
         [Event.onFadeComplete v] ++
           (Sound.stop (Sound.setVolume { s with fadeTween := true } v)).2)
      else (Sound.setVolume { s with fadeTween := true } v, [Event.onFadeComplete v]) := by
    simp only [Sound.fadeTo, hguard, Bool.false_eq_true, if_false]
    unfold Sound.runFadeTween Sound.fadeComplete
    rw [hvol]
  by_cases hv0 : v = 0
  · rw [hmain, if_pos hv0]
    refine ⟨by rw [stop_fst_volume, hvol], ?_, by simp, fun _ => by rw [stop_fst_isPlaying],
      fun h => absurd hv0 h⟩
    simp [List.countP_append, stop_events_no_fade, List.countP_cons, isFadeEvent]
  · rw [hmain, if_neg hv0]
    exact ⟨hvol, by simp [List.countP_cons, isFadeEvent], by simp, fun h => absurd h hv0,
      fun _ => hplay⟩

/-- C4 (witness): the amended statement evaluated on the playing (unmuted)
whole-clip Sound `(Sound.play envDecoded soundBlip ...).1`, fading to 0. -/
theorem c4_witness :
    (Sound.fadeTo (Sound.play envDecoded soundBlip none none none none none none).1
        (some 100) (some 0)).1.volume = 0 ∧
    (Sound.fadeTo (Sound.play envDecoded soundBlip none none none none none none).1
        (some 100) (some 0)).2.countP isFadeEvent = 1 ∧
    Event.onFadeComplete 0 ∈
      (Sound.fadeTo (Sound.play envDecoded soundBlip none none none none none none).1
        (some 100) (some 0)).2 ∧
    ((0 : ℚ) = 0 →
      (Sound.fadeTo (Sound.play envDecoded soundBlip none none none none none none).1
        (some 100) (some 0)).1.isPlaying = false) ∧
    ((0 : ℚ) ≠ 0 →
      (Sound.fadeTo (Sound.play envDecoded soundBlip none none none none none none).1
        (some 100) (some 0)).1.isPlaying = true) :=
  c4_fadeTo (Sound.play envDecoded soundBlip none none none none none none).1 (some 100) 0
    (by with_unfolding_all rfl) (by with_unfolding_all rfl) (by with_unfolding_all rfl)
    (by with_unfolding_all decide) (fun _ => ⟨le_refl 0, by norm_num⟩)

/-! ### C3 — the isPlaying/paused exclusion invariant -/

@[simp]
theorem applyMarker_isPlaying (s : Sound) (m : Marker) (v0 : Option ℚ) (l0 : Option Bool) :
    (s.applyMarker m v0 l0).isPlaying = s.isPlaying := by
  unfold Sound.applyMarker
  cases v0 <;> cases l0 <;> simp

@[simp]
theorem applyMarker_paused (s : Sound) (m : Marker) (v0 : Option ℚ) (l0 : Option Bool) :
    (s.applyMarker m v0 l0).paused = s.paused := by
  unfold Sound.applyMarker
  cases v0 <;> cases l0 <;> simp

@[simp]
theorem applyNoMarker_isPlaying (s : Sound) (p0 v0 : Option ℚ) (l0 : Option Bool) :
    (s.applyNoMarker p0 v0 l0).isPlaying = s.isPlaying := by
  unfold Sound.applyNoMarker
  simp

@[simp]
theorem applyNoMarker_paused (s : Sound) (p0 v0 : Option ℚ) (l0 : Option Bool) :
    (s.applyNoMarker p0 v0 l0).paused = s.paused := by
  unfold Sound.applyNoMarker
  simp

@[simp]
theorem playOnceFlag_isPlaying (s : Sound) :
    s.playOnceFlag.1.isPlaying = s.isPlaying := by
  unfold Sound.playOnceFlag
  split <;> rfl

@[simp]
theorem playOnceFlag_paused (s : Sound) :
    s.playOnceFlag.1.paused = s.paused := by
  unfold Sound.playOnceFlag
  split <;> rfl

theorem inv_stop (s : Sound) : (Sound.stop s).1.inv = true := by
  simp only [Sound.stop, Sound.stopSourceAndDisconnect, Sound.inv]
  (repeat' split) <;> rfl

theorem inv_stopExistingVoice (s : Sound) (fr : Bool) (h : s.inv = true) :
    (s.stopExistingVoice fr).inv = true := by
  simp only [Sound.stopExistingVoice, Sound.stopSourceAndDisconnect, Sound.inv] at h ⊢
  (repeat' split) <;> simp_all

theorem inv_startBackend (env : Env) (s : Sound) (marker : String) (f : Bool)
    (h : s.inv = true) :
    (Sound.startBackend env s marker f).1.inv = true := by
  simp only [Sound.startBackend, Sound.createSourceAndConnect, Sound.inv] at h ⊢
  (repeat' split) <;> simp_all

theorem inv_applyMarker (s : Sound) (m : Marker) (v0 : Option ℚ) (l0 : Option Bool)
    (h : s.inv = true) : (s.applyMarker m v0 l0).inv = true := by
  simp only [Sound.inv, applyMarker_isPlaying, applyMarker_paused]
  simpa [Sound.inv] using h

theorem inv_applyNoMarker (s : Sound) (p0 v0 : Option ℚ) (l0 : Option Bool)
    (h : s.inv = true) : (s.applyNoMarker p0 v0 l0).inv = true := by
  simp only [Sound.inv, applyNoMarker_isPlaying, applyNoMarker_paused]
  simpa [Sound.inv] using h

theorem inv_playTail (env : Env) (s : Sound) (marker : String) (f : Bool)
    (h : s.inv = true) :
    (Sound.startBackend env s marker f).1.playOnceFlag.1.inv = true := by
  have h1 := inv_startBackend env s marker f h
  simp only [Sound.inv, playOnceFlag_isPlaying, playOnceFlag_paused] at h1 ⊢
  exact h1

theorem inv_play (env : Env) (s : Sound) (m0 : Option String) (p0 v0 : Option ℚ)
    (l0 f0 o0 : Option Bool) (h : s.inv = true) :
    (Sound.play env s m0 p0 v0 l0 f0 o0).1.inv = true := by
  have h1 := inv_stopExistingVoice s (f0.getD true) h
  simp only [Sound.play]
  split
  · exact h
  · split
    · split
      · exact h1
      · exact inv_playTail env _ _ _ (inv_applyNoMarker _ p0 v0 l0 h1)
    · split
      · exact h1
      · exact inv_playTail env _ _ _ (inv_applyMarker _ _ v0 l0 h1)

theorem inv_pause (env : Env) (s : Sound) (h : s.inv = true) :
    (Sound.pause env s).1.inv = true := by
  simp only [Sound.pause]
  split
  · exact inv_stop _
  · exact h

theorem inv_resume (env : Env) (s : Sound) (h : s.inv = true) :
    (Sound.resume env s).1.inv = true := by
  simp only [Sound.resume, Sound.createSourceAndConnect, Sound.inv] at h ⊢
  (repeat' split) <;> simp_all

theorem inv_destroy (s : Sound) (r0 : Option Bool) : (Sound.destroy s r0).1.inv = true := by
  simp only [Sound.destroy, Sound.disposeFields]
  split <;> exact inv_stop _

theorem inv_updateCompletion (env : Env) (s : Sound) (hpa : s.paused = false) :
    (Sound.updateCompletion env s).1.inv = true := by
  simp only [Sound.updateCompletion]
  (repeat' split) <;>
    first
      | exact inv_stop _
      | (exact inv_play _ _ _ _ _ _ _ _ (by simp [Sound.inv]))
      | simp [Sound.inv, hpa]

theorem inv_updatePlayingTick (env : Env) (s : Sound) (h : s.inv = true)
    (hp : s.isPlaying = true) :
    (Sound.updatePlayingTick env s).1.inv = true := by
  have hpa : s.paused = false := by
    simp only [Sound.inv, hp, Bool.true_and, Bool.not_eq_true'] at h
    exact h
  simp only [Sound.updatePlayingTick]
  (repeat' split) <;>
    first
      | exact inv_updateCompletion env _ hpa
      | exact h

theorem inv_update (env : Env) (s : Sound) (h : s.inv = true) :
    (Sound.update env s).1.inv = true := by
  simp only [Sound.update]
  split
  · exact inv_destroy s none
  · have h1 : (if env.isSoundDecoded && !s.onDecodedEventDispatched then
        ({ s with onDecodedEventDispatched := true }, [Event.onDecoded])
       else (s, [])).1.inv = true := by
      split
      · exact h
      · exact h
    generalize hA : (if env.isSoundDecoded && !s.onDecodedEventDispatched then
        ({ s with onDecodedEventDispatched := true }, [Event.onDecoded])
       else (s, [])) = A at h1 ⊢
    have h2 : (if A.1.pendingPlayback && env.isSoundReady then
        Sound.play env { A.1 with pendingPlayback := false } (some A.1.tempMarker)
          (some A.1.tempPosition) (some A.1.tempVolume) (some A.1.tempLoop) none none
       else (A.1, [])).1.inv = true := by
      split
      · exact inv_play _ _ _ _ _ _ _ _ h1
      · exact h1
    generalize hB : (if A.1.pendingPlayback && env.isSoundReady then
        Sound.play env { A.1 with pendingPlayback := false } (some A.1.tempMarker)
          (some A.1.tempPosition) (some A.1.tempVolume) (some A.1.tempLoop) none none
       else (A.1, [])) = B at h2 ⊢
    split
    · next hc => exact inv_updatePlayingTick env B.1 h2 hc
    · exact h2

theorem inv_step (env : Env) (op : Op) (s : Sound) (h : s.inv = true) :
    (Sound.step env op s).1.inv = true := by
  cases op with
  | play m p v l f o => exact inv_play env s m p v l f o h
  | pause => exact inv_pause env s h
  | resume => exact inv_resume env s h
  | stop => exact inv_stop s
  | update => exact inv_update env s h
  | destroy r => exact inv_destroy s r

theorem inv_runOps (ops : List (Env × Op)) (s : Sound) (h : s.inv = true) :
    (Sound.runOps s ops).inv = true := by
  induction ops generalizing s with
  | nil => exact h
  | cons eo rest ih =>
    cases eo with
    | mk e o => exact ih _ (inv_step e o s h)

/-- C3 (counterexample): the claim also asserts that `pendingPlayback` is
only true while `isPlaying` is false; that part is violated by a reachable
state: `play()` before the asset is decoded sets `pendingPlayback`; the
decode completes asynchronously; a second public `play()` then starts
playback without ever clearing the stale flag, leaving `pendingPlayback` and
`isPlaying` both true. -/
theorem c3_counterexample :
    (Sound.runOps soundBlip pendingTrace).pendingPlayback = true ∧
    (Sound.runOps soundBlip pendingTrace).isPlaying = true :=
  ⟨by with_unfolding_all rfl, by with_unfolding_all rfl⟩

/-- C3 (amended): every Sound state reachable from a newly constructed Sound
through the public operations (play, pause, resume, stop, update, destroy),
under arbitrary asynchronous environment changes between calls, satisfies
the first half of the claimed invariant: at most one of `isPlaying` and
`paused` is true.  (The `pendingPlayback → ¬isPlaying` half is refuted by
`c3_counterexample`.) -/
theorem c3_inv_reachable (env0 : Env) (key : String) (v0 : Option ℚ) (l0 : Option Bool)
    (wa ta : Bool) (ops : List (Env × Op)) :
    (Sound.runOps (Sound.init env0 key v0 l0 wa ta) ops).inv = true :=
  inv_runOps ops _ rfl

/-! ### C7 — the decode watch list -/

theorem mem_arraySetAdd (acc : List String) (f k : String) :
    k ∈ arraySetAdd acc f ↔ k ∈ acc ∨ k = f := by
  unfold arraySetAdd
  split
  · next hf =>
    constructor
    · exact Or.inl
    · rintro (h | rfl)
      · exact h
      · exact hf
  · simp [List.mem_append]

theorem mem_foldl_arraySetAdd (d0 : String → Bool) (files : List String) :
    ∀ (acc : List String) (k : String),
      k ∈ files.foldl (fun acc k => if d0 k then acc else arraySetAdd acc k) acc ↔
        k ∈ acc ∨ (k ∈ files ∧ d0 k = false) := by
  induction files with
  | nil => simp
  | cons f fs ih =>
    intro acc k
    rw [List.foldl_cons]
    by_cases hd : d0 f = true
    · rw [if_pos hd, ih]
      constructor
      · rintro (h | ⟨h1, h2⟩)
        · exact Or.inl h
        · exact Or.inr ⟨List.mem_cons_of_mem _ h1, h2⟩
      · rintro (h | ⟨h1, h2⟩)
        · exact Or.inl h
        · rcases List.mem_cons.mp h1 with rfl | h1
          · rw [hd] at h2
            cases h2
          · exact Or.inr ⟨h1, h2⟩
    · have hd2 : d0 f = false := by
        simpa using hd
      rw [if_neg hd, ih]
      constructor
      · rintro (h | ⟨h1, h2⟩)
        · rcases (mem_arraySetAdd acc f k).mp h with h | rfl
          · exact Or.inl h
          · exact Or.inr ⟨List.mem_cons_self _ _, hd2⟩
        · exact Or.inr ⟨List.mem_cons_of_mem _ h1, h2⟩
      · rintro (h | ⟨h1, h2⟩)
        · exact Or.inl ((mem_arraySetAdd acc f k).mpr (Or.inl h))
        · rcases List.mem_cons.mp h1 with heq | h1
          · exact Or.inl ((mem_arraySetAdd acc f k).mpr (Or.inr heq))
          · exact Or.inr ⟨h1, h2⟩

theorem mem_setDecodedCallback_watchList (files : List String) (d0 : String → Bool)
    (k : String) :
    k ∈ (SoundManager.setDecodedCallback files d0).1.watchList ↔
      k ∈ files ∧ d0 k = false := by
  simp only [SoundManager.setDecodedCallback]
  split
  · next hl =>
    rw [List.isEmpty_iff] at hl
    constructor
    · intro hk
      cases hk
    · intro hk
      have hmem := (mem_foldl_arraySetAdd d0 files [] k).mpr (Or.inr hk)
      rw [hl] at hmem
      cases hmem
  · rw [mem_foldl_arraySetAdd d0 files [] k]
    simp

theorem setDecodedCallback_watching (files : List String) (d0 : String → Bool) :
    (SoundManager.setDecodedCallback files d0).1.watching =
      !(SoundManager.setDecodedCallback files d0).2 := by
  simp only [SoundManager.setDecodedCallback]
  split <;> rfl

theorem setDecodedCallback_immediate_iff (files : List String) (d0 : String → Bool) :
    (SoundManager.setDecodedCallback files d0).2 = true ↔ ∀ k ∈ files, d0 k = true := by
  simp only [SoundManager.setDecodedCallback]
  split
  · next hl =>
    rw [List.isEmpty_iff] at hl
    simp only [true_iff]

    intro k hk
    by_cases hd : d0 k = true
    · exact hd
    · have hd2 : d0 k = false := by
        simpa using hd
      have hmem := (mem_foldl_arraySetAdd d0 files [] k).mpr (Or.inr ⟨hk, hd2⟩)
      rw [hl] at hmem
      cases hmem
  · next hl =>
    simp only [Bool.false_eq_true, false_iff]
    intro hall
    apply hl
    rw [List.isEmpty_iff]
    apply List.eq_nil_iff_forall_not_mem.mpr
    intro k hk
    rcases (mem_foldl_arraySetAdd d0 files [] k).mp hk with h | ⟨h1, h2⟩
    · cases h
    · rw [hall k h1] at h2
      cases h2

theorem updateWatch_not_watching (e : String → Bool) (w : WatchState)
    (h : w.watching = false) :
    SoundManager.updateWatch e w = (w, false) := by
  simp [SoundManager.updateWatch, h]

theorem runWatch_not_watching (envs : List (String → Bool)) (w : WatchState)
    (h : w.watching = false) :
    SoundManager.runWatch w envs = (w, []) := by
  induction envs with
  | nil => rfl
  | cons e es ih =>
    simp [SoundManager.runWatch, updateWatch_not_watching e w h, ih]

theorem updateWatch_fired (e : String → Bool) (w : WatchState)
    (h : (SoundManager.updateWatch e w).2 = true) :
    (SoundManager.updateWatch e w).1.watching = false ∧
      ∀ k ∈ w.watchList, e k = true := by
  rcases hw : w.watching with _ | _
  · rw [updateWatch_not_watching e w hw] at h
    cases h
  · rcases hl : (w.watchList.filter (fun k => !(e k))).isEmpty with _ | _
    · exfalso
      simp [SoundManager.updateWatch, hw, hl] at h
    · have hl2 : w.watchList.filter (fun k => !(e k)) = [] := by
        rw [← List.isEmpty_iff]
        exact hl
      refine ⟨by simp [SoundManager.updateWatch, hw, hl], fun k hk => ?_⟩
      have hx := List.filter_eq_nil_iff.mp hl2 k hk
      simpa using hx

theorem updateWatch_not_fired (e : String → Bool) (w : WatchState) (hw : w.watching = true)
    (h : (SoundManager.updateWatch e w).2 = false) :
    (SoundManager.updateWatch e w).1.watching = true ∧
      (SoundManager.updateWatch e w).1.watchList =
        w.watchList.filter (fun k => !(e k)) := by
  rcases hl : (w.watchList.filter (fun k => !(e k))).isEmpty with _ | _
  · constructor <;> simp [SoundManager.updateWatch, hw, hl]
  · exfalso
    simp [SoundManager.updateWatch, hw, hl] at h

theorem runWatch_length_le_one (envs : List (String → Bool)) :
    ∀ w : WatchState, ((SoundManager.runWatch w envs).2).length ≤ 1 := by
  induction envs with
  | nil =>
    intro w
    simp [SoundManager.runWatch]
  | cons e es ih =>
    intro w
    simp only [SoundManager.runWatch]
    rcases hf : (SoundManager.updateWatch e w).2 with _ | _
    · simpa using ih (SoundManager.updateWatch e w).1
    · have hw := (updateWatch_fired e w hf).1
      rw [runWatch_not_watching es _ hw]
      simp

theorem runWatch_sound (envs : List (String → Bool)) :
    ∀ (w : WatchState) (i : Nat), i ∈ (SoundManager.runWatch w envs).2 →
      ∀ k ∈ w.watchList, ∃ e ∈ envs.take (i + 1), e k = true := by
  induction envs with
  | nil =>
    intro w i hi
    simp [SoundManager.runWatch] at hi
  | cons e es ih =>
    intro w i hi k hk
    simp only [SoundManager.runWatch, List.mem_append] at hi
    rcases hi with hi | hi
    · rcases hf : (SoundManager.updateWatch e w).2 with _ | _
      · rw [hf] at hi
        simp at hi
      · rw [hf] at hi
        simp at hi
        subst hi
        exact ⟨e, by simp, (updateWatch_fired e w hf).2 k hk⟩
    · rcases List.mem_map.mp hi with ⟨j, hj, rfl⟩
      rcases hwatch : w.watching with _ | _
      · rw [updateWatch_not_watching e w hwatch] at hj
        rw [runWatch_not_watching es w hwatch] at hj
        cases hj
      · rcases hf : (SoundManager.updateWatch e w).2 with _ | _
        · have hnf := updateWatch_not_fired e w hwatch hf
          by_cases hek : e k = true
          · exact ⟨e, by simp, hek⟩
          · have hk2 : k ∈ (SoundManager.updateWatch e w).1.watchList := by
              rw [hnf.2, List.mem_filter]
              exact ⟨hk, by simpa using hek⟩
            rcases ih (SoundManager.updateWatch e w).1 j hj k hk2 with ⟨e2, he2, hke2⟩
            exact ⟨e2, by
              rw [List.take_succ_cons]
              exact List.mem_cons_of_mem _ he2, hke2⟩
        · have hw := (updateWatch_fired e w hf).1
          rw [runWatch_not_watching es _ hw] at hj
          cases hj

theorem runWatch_live (envs : List (String → Bool)) :
    ∀ (w : WatchState), w.watching = true →
      ∀ (i : Nat) (hi : i < envs.length),
        (∀ k ∈ w.watchList, envs.get ⟨i, hi⟩ k = true) →
        (SoundManager.runWatch w envs).2 ≠ [] := by
  induction envs with
  | nil =>
    intro w _ i hi
    cases hi
  | cons e es ih =>
    intro w hw i hi hdec
    simp only [SoundManager.runWatch]
    rcases hf : (SoundManager.updateWatch e w).2 with _ | _
    · have hnf := updateWatch_not_fired e w hw hf
      cases i with
      | zero =>
        exfalso
        simp only [SoundManager.updateWatch, hw, if_true] at hf
        split at hf
        · cases hf
        · next hl =>
          apply hl
          rw [List.isEmpty_iff, List.filter_eq_nil_iff]
          intro k hk
          have := hdec k hk
          simpa using this
      | succ j =>
        have hj : j < es.length := Nat.lt_of_succ_lt_succ hi
        have hdec2 : ∀ k ∈ (SoundManager.updateWatch e w).1.watchList,
            es.get ⟨j, hj⟩ k = true := by
          intro k hk
          rw [hnf.2, List.mem_filter] at hk
          exact hdec k hk.1
        have hne := ih (SoundManager.updateWatch e w).1 hnf.1 j hj hdec2
        intro hcontra
        rcases List.append_eq_nil.mp hcontra with ⟨_, h2⟩
        exact hne (List.map_eq_nil_iff.mp h2)
    · simp

/-- C7: `setDecodedCallback(keys, cb)` invokes `cb` synchronously exactly
when every key is already decoded; otherwise the watch is armed and across
any sequence of `update()` ticks `cb` fires at most once, only at a tick by
which every key has reported decoded (either already at the call or at some
tick up to the firing one), and it does fire once some tick reports every
key decoded. -/
theorem c7_setDecodedCallback (files : List String) (d0 : String → Bool)
    (envs : List (String → Bool)) :
    ((∀ k ∈ files, d0 k = true) →
      (SoundManager.setDecodedCallback files d0).2 = true ∧
      (SoundManager.runWatch (SoundManager.setDecodedCallback files d0).1 envs).2 = []) ∧
    ((∃ k ∈ files, d0 k = false) →
      (SoundManager.setDecodedCallback files d0).2 = false ∧
      (SoundManager.runWatch (SoundManager.setDecodedCallback files d0).1 envs).2.length ≤ 1 ∧
      (∀ i ∈ (SoundManager.runWatch (SoundManager.setDecodedCallback files d0).1 envs).2,
        ∀ k ∈ files, d0 k = true ∨ ∃ e ∈ envs.take (i + 1), e k = true) ∧
      (∀ (i : Nat) (hi : i < envs.length),
        (∀ k ∈ files, d0 k = true ∨ envs.get ⟨i, hi⟩ k = true) →
        (SoundManager.runWatch (SoundManager.setDecodedCallback files d0).1 envs).2 ≠ [])) := by
  constructor
  · intro hall
    have himm : (SoundManager.setDecodedCallback files d0).2 = true :=
      (setDecodedCallback_immediate_iff files d0).mpr hall
    refine ⟨himm, ?_⟩
    have hw : (SoundManager.setDecodedCallback files d0).1.watching = false := by
      rw [setDecodedCallback_watching, himm]
      rfl
    rw [runWatch_not_watching envs _ hw]
  · rintro ⟨k0, hk0, hd0⟩
    have himm : (SoundManager.setDecodedCallback files d0).2 = false := by
      rcases him : (SoundManager.setDecodedCallback files d0).2 with _ | _
      · rfl
      · have := (setDecodedCallback_immediate_iff files d0).mp him k0 hk0
        rw [hd0] at this
        cases this
    have hw : (SoundManager.setDecodedCallback files d0).1.watching = true := by
      rw [setDecodedCallback_watching, himm]
      rfl
    refine ⟨himm, runWatch_length_le_one envs _, ?_, ?_⟩
    · intro i hi k hk
      by_cases hdk : d0 k = true
      · exact Or.inl hdk
      · have hdk2 : d0 k = false := by
          simpa using hdk
        have hkw : k ∈ (SoundManager.setDecodedCallback files d0).1.watchList :=
          (mem_setDecodedCallback_watchList files d0 k).mpr ⟨hk, hdk2⟩
        exact Or.inr (runWatch_sound envs _ i hi k hkw)
    · intro i hi hdec
      apply runWatch_live envs _ hw i hi
      intro k hk
      rcases (mem_setDecodedCallback_watchList files d0 k).mp hk with ⟨hk1, hk2⟩
      rcases hdec k hk1 with h | h
      · rw [hk2] at h
        cases h
      · exact h

/-- C7 (witness): the non-immediate case evaluated on keys `a`, `b`, nothing
decoded at the call, everything decoded at the first tick: the call does not
invoke the callback, and the first tick does. -/
theorem c7_witness :
    (SoundManager.setDecodedCallback ["a", "b"] decNone).2 = false ∧
    (SoundManager.runWatch (SoundManager.setDecodedCallback ["a", "b"] decNone).1
      [decAll]).2 ≠ [] := by
  have h := (c7_setDecodedCallback ["a", "b"] decNone [decAll]).2
    ⟨"a", by simp, rfl⟩
  exact ⟨h.1, h.2.2.2 0 (by simp) (fun k _ => Or.inr rfl)⟩

end Phaser
